import Mathlib

/-!
# Shallow embedding of the `niw_web` payment-confirmation / entitlement core

This file embeds, in Lean, the payment-confirmation ("checkout reconciliation")
core of the `niw_web` Express application:

* the `users` and `payments` tables (`src/database.js`, `initDatabase`),
* the handler `GET /api/checkout/confirm` (`src/server.js` lines 505-617),
* the webhook handler `POST /api/stripe-webhook` (`src/server.js` lines 620-659),
* the handler `POST /api/create-checkout-session` (`src/server.js` lines 391-502),
* the handler `POST /api/get-user-token` (`src/server.js` lines 729-769).

Modelling conventions, stated once here:

* Database tables are lists of row structures; `INSERT` appends, `UPDATE ... WHERE`
  maps over the list.  The `UNIQUE` constraint on `payments.stripe_session_id`
  is modelled inside `insertPayment`: an insert whose session id is already
  present raises the Postgres duplicate-key error (code `23505`) and leaves the
  table unchanged.
* Environmental database failures (connection loss, schema drift, ...) are
  injected through an `Option DbError` fault parameter per `INSERT` attempt:
  `some e` means that attempt threw `e` instead of executing.
* JavaScript truthiness on strings (`x || d`, `if (!x)`) is modelled by
  `jsTruthy` / `jsOr`: `undefined`/`null` becomes `none` and the empty string is
  falsy.  `String.prototype.includes` is modelled by `jsIncludes`.
* The Stripe client is modelled by a `retrieve : String → Option Checkout`
  oracle; `none` models `stripe.checkout.sessions.retrieve` throwing, which the
  handler's outer `catch` turns into an HTTP 500 response.
* Checkout `metadata` fields are inlined as `Option` fields of `Checkout`:
  every access in the source goes through `metadata?.x` / `metadata && metadata.x`
  null-guards, so an absent metadata object and an absent field are
  indistinguishable.  The numeric metadata strings `base_price` /
  `processing_fee` are modelled as `Option Int` carrying the value that
  `parseInt(x || '0')` produces for the numeric strings the session-creation
  handler stores.
* `jwt.sign(payload, config.JWT_SECRET, { expiresIn: '7d' })` is modelled by the
  `SignedToken` structure carrying the payload, the signing secret and the
  expiry; `amount_dollars` (a SQL `REAL` computed as `amountPaid / 100`) is
  modelled exactly as a rational.
* `req.session` mutation is not part of the persistent `State`; the claims under
  study are about the `users`/`payments` tables and the returned JSON.
-/

/-! ## JavaScript string helpers -/

/-- JS truthiness for an optional string: `undefined`/`null` and `""` are falsy. -/
def jsTruthy (s : Option String) : Option String :=
  match s with
  | some v => if v = "" then none else some v
  | none => none

/-- JS `x || d` for an optional string `x` and a default `d`. -/
def jsOr (s : Option String) (d : String) : String :=
  match jsTruthy s with
  | some v => v
  | none => d

/-- `pat` is a prefix of `hay` (on character lists). -/
def charsPrefix : List Char → List Char → Bool
  | [], _ => true
  | _ :: _, [] => false
  | p :: ps, h :: hs => p == h && charsPrefix ps hs

/-- `hay` contains `pat` as a contiguous substring (on character lists). -/
def charsContain : List Char → List Char → Bool
  | [], pat => pat.isEmpty
  | h :: hs, pat => charsPrefix pat (h :: hs) || charsContain hs pat

/-- Model of JavaScript `s.includes(pat)`. -/
def jsIncludes (s pat : String) : Bool :=
  charsContain s.data pat.data

/-! ## Data model: the `users` and `payments` tables (`src/database.js`) -/

/-- A row of the `users` table: `email UNIQUE NOT NULL`, `password_hash NOT NULL`,
`paid BOOLEAN DEFAULT FALSE`, `package_type TEXT DEFAULT 'full'` (nullable). -/
structure UserRow where
  email : String
  passwordHash : String
  paid : Bool
  packageType : Option String
  deriving Repr, DecidableEq

/-- A row of the `payments` table (after the `/api/migrate-database` migration
which added the nullable `payment_method`, `base_price_cents`,
`processing_fee_cents` columns; rows written through the pre-migration fallback
insert leave those three columns unset). -/
structure PaymentRow where
  userEmail : String
  stripeSessionId : String
  amountCents : Int
  amountDollars : Rat
  packageType : String
  paymentType : String
  paymentMethod : Option String
  basePriceCents : Option Int
  processingFeeCents : Option Int
  status : String
  deriving Repr, DecidableEq

/-- The persistent store: the two tables the reconciliation core touches. -/
structure State where
  users : List UserRow
  payments : List PaymentRow
  deriving Repr, DecidableEq

/-- `SELECT ... FROM users WHERE email = $1` (first matching row). -/
def findUser (l : List UserRow) (e : String) : Option UserRow :=
  l.find? (fun u => u.email == e)

/-- Number of `payments` rows carrying a given `stripe_session_id`. -/
def countSession (ps : List PaymentRow) (sid : String) : Nat :=
  (ps.filter (fun p => p.stripeSessionId == sid)).length

/-! ## Database errors and the payments insert -/

/-- A database error as the handlers observe it: a Postgres error code and a
message (inspected only via `includes`). -/
structure DbError where
  code : String
  message : String
  deriving Repr, DecidableEq

/-- The duplicate-key error Postgres raises when an insert violates the
`UNIQUE` constraint on `payments.stripe_session_id`. -/
def dupKeyError : DbError :=
  { code := "23505"
    message := "duplicate key value violates unique constraint payments_stripe_session_id_key" }

/-- One `INSERT INTO payments ...` attempt.  `fault = some e` injects an
environmental failure (the attempt throws `e` without executing); otherwise the
`UNIQUE` constraint on `stripe_session_id` rejects a duplicate with
`dupKeyError` and a fresh row is appended. -/
def insertPayment (fault : Option DbError) (row : PaymentRow) (st : State) :
    State × Option DbError :=
  match fault with
  | some e => (st, some e)
  | none =>
    if st.payments.any (fun p => p.stripeSessionId == row.stripeSessionId) then
      (st, some dupKeyError)
    else
      ({ st with payments := st.payments ++ [row] }, none)

/-- `UPDATE users SET paid = true, package_type = $1 WHERE email = $2` applied
to one row (used by both the confirm handler and the webhook handler). -/
def updUser (paidEmail packageType : String) (u : UserRow) : UserRow :=
  if u.email = paidEmail then { u with paid := true, packageType := some packageType } else u

/-- `UPDATE users SET paid = true, package_type = $1 WHERE email = $2`. -/
def grantEntitlement (paidEmail packageType : String) (st : State) : State :=
  { st with users := st.users.map (updUser paidEmail packageType) }

/-! ## Provider checkout sessions and tokens -/

/-- A Stripe checkout session as the handlers read it
(`stripe.checkout.sessions.retrieve` / the webhook `event.data.object`).
Metadata fields are inlined (see the header note). -/
structure Checkout where
  id : String
  paymentStatus : String
  paymentMethodTypes : List String
  amountTotal : Int
  clientReferenceId : Option String
  metadataEmail : Option String
  metadataPackageType : Option String
  metadataPaymentMethod : Option String
  metadataBasePrice : Option Int
  metadataProcessingFee : Option Int
  deriving Repr, DecidableEq

/-- `checkout.payment_method_types?.includes('us_bank_account')`. -/
def isAch (c : Checkout) : Bool :=
  c.paymentMethodTypes.contains "us_bank_account"

/-- Eligibility test of the confirm handler (`src/server.js` 517-522):
`isPaid || isAchProcessing || isAchUnpaid`. -/
def isEligible (c : Checkout) : Bool :=
  c.paymentStatus == "paid"
    || (isAch c && c.paymentStatus == "processing")
    || (isAch c && c.paymentStatus == "unpaid")

/-- The accepted asynchronous-initiation cases
(`isAchProcessing || isAchUnpaid`). -/
def achAsync (c : Checkout) : Bool :=
  (isAch c && c.paymentStatus == "processing") || (isAch c && c.paymentStatus == "unpaid")

/-- `checkout.client_reference_id || (checkout.metadata && checkout.metadata.email)`
followed by the `if (paidEmail)` truthiness guard. -/
def resolveEmail (c : Checkout) : Option String :=
  match jsTruthy c.clientReferenceId with
  | some e => some e
  | none => jsTruthy c.metadataEmail

/-- The JWT payload `{ email, paid, packageType }`. -/
structure TokenClaims where
  email : String
  paid : Bool
  packageType : Option String
  deriving Repr, DecidableEq

/-- Production default of `config.JWT_SECRET` (`src/server.js` line 26); the
environment may override the value, which no claim depends on. -/
def configJwtSecret : String := "niw_jwt_secret_key_2025_xyz789"

/-- Output of `jwt.sign(claims, config.JWT_SECRET, { expiresIn: '7d' })`. -/
structure SignedToken where
  claims : TokenClaims
  secret : String
  expiresIn : String
  deriving Repr, DecidableEq

/-- The `user` object echoed in JSON responses. -/
structure UserView where
  email : String
  paid : Bool
  packageType : Option String
  deriving Repr, DecidableEq

/-! ## `GET /api/checkout/confirm` (`src/server.js` 505-617) -/

/-- Responses of the confirm handler: a `{ success: true, paid, token?, user? }`
JSON body, or the HTTP 500 `Failed to confirm payment` error from the outer
`catch`. -/
inductive ConfirmRes where
  | json (paid : Bool) (token : Option SignedToken) (user : Option UserView)
  | error500
  deriving Repr, DecidableEq

/-- Payment-type classification (`src/server.js` 534-548): compare the charged
amount with the metadata-recorded expected total, fall back to `initial`. -/
def classifyPaymentType (packageType : String) (amountPaid expectedTotal processingFee : Int) :
    String :=
  if packageType = "form-filling" ∧ amountPaid = expectedTotal then "initial"
  else if packageType = "full" ∧ amountPaid = expectedTotal then "initial"
  else if packageType = "full" ∧ amountPaid = 130000 + processingFee then "upgrade"
  else "initial"

/-- The `payments` row the confirm handler inserts for session `sid`,
checkout `c` and resolved owner `paidEmail` (`src/server.js` 525-564). -/
def confirmRow (sid : String) (c : Checkout) (paidEmail : String) : PaymentRow :=
  let amountPaid := c.amountTotal
  let packageType := jsOr c.metadataPackageType "full"
  let paymentMethod := jsOr c.metadataPaymentMethod "card"
  let basePrice := c.metadataBasePrice.getD 0
  let processingFee := c.metadataProcessingFee.getD 0
  { userEmail := paidEmail
    stripeSessionId := sid
    amountCents := amountPaid
    amountDollars := (amountPaid : Rat) / 100
    packageType := packageType
    paymentType := classifyPaymentType packageType amountPaid (basePrice + processingFee) processingFee
    paymentMethod := some paymentMethod
    basePriceCents := some basePrice
    processingFeeCents := some processingFee
    status := if achAsync c then "processing" else "completed" }

/-- The payment-recording block of the confirm handler (`src/server.js`
558-586): try the new-schema insert; on a duplicate-key error for
`stripe_session_id` treat as recorded; on a missing `payment_method` column
retry with the old schema, where a duplicate (code `23505`) again counts as
recorded.  Returns the new state and the `paymentRecorded` flag. -/
def recordPaymentStep (fault1 fault2 : Option DbError) (row oldRow : PaymentRow) (st : State) :
    State × Bool :=
  match insertPayment fault1 row st with
  | (st1, none) => (st1, true)
  | (st1, some e) =>
    if e.code = "23505" ∧ jsIncludes e.message "stripe_session_id" = true then (st1, true)
    else if jsIncludes e.message "payment_method" = true then
      match insertPayment fault2 oldRow st1 with
      | (st2, none) => (st2, true)
      | (st2, some e2) => (st2, e2.code == "23505")
    else (st1, false)

/-- The handler `GET /api/checkout/confirm` (`src/server.js` 505-617).
`retrieve` is the Stripe client (`none` models a thrown retrieval error),
`fault1`/`fault2` inject environmental failures into the two insert attempts,
`sessionId` is the `session_id` query parameter.  Returns the updated store
and the HTTP response.  Note that `paymentRecorded` is computed but never read
afterwards, exactly as in the source. -/
def confirm (stripeConfigured : Bool) (retrieve : String → Option Checkout)
    (fault1 fault2 : Option DbError) (sessionId : Option String) (st : State) :
    State × ConfirmRes :=
  match jsTruthy sessionId, stripeConfigured with
  | none, _ => (st, .json false none none)
  | some _, false => (st, .json false none none)
  | some sid, true =>
    match retrieve sid with
    | none => (st, .error500)
    | some checkout =>
      if isEligible checkout then
        match resolveEmail checkout with
        | none => (st, .json true none none)
        | some paidEmail =>
          let packageType := jsOr checkout.metadataPackageType "full"
          let row := confirmRow sid checkout paidEmail
          let oldRow := { row with paymentMethod := none, basePriceCents := none,
                                   processingFeeCents := none }
          let rec1 := recordPaymentStep fault1 fault2 row oldRow st
          let _paymentRecorded := rec1.2
          let st2 := grantEntitlement paidEmail packageType rec1.1
          let tok : SignedToken :=
            { claims := { email := paidEmail, paid := true, packageType := some packageType }
              secret := configJwtSecret
              expiresIn := "7d" }
          (st2, .json true (some tok)
            (some { email := paidEmail, paid := true, packageType := some packageType }))
      else (st, .json false none none)

/-- `n` successive calls of the confirm handler with the same `session_id`
against a fixed provider and a healthy database, threading the store. -/
def confirmIter (retrieve : String → Option Checkout) (sid : String) :
    Nat → State → State
  | 0, st => st
  | n + 1, st => confirmIter retrieve sid n (confirm true retrieve none none (some sid) st).1

/-! ## `POST /api/stripe-webhook` (`src/server.js` 620-659) -/

/-- Webhook responses: `{ received: true }` or the HTTP 400 signature error. -/
inductive WebhookRes where
  | received
  | badSignature
  deriving Repr, DecidableEq

/-- `UPDATE payments SET status = 'completed' WHERE stripe_session_id = $2`
applied to one row. -/
def completePayment (sid : String) (p : PaymentRow) : PaymentRow :=
  if p.stripeSessionId = sid then { p with status := "completed" } else p

/-- The webhook handler.  `sigOk` models `stripe.webhooks.constructEvent`
succeeding; `eventType` is `event.type` and `session` is `event.data.object`. -/
def stripeWebhook (sigOk : Bool) (eventType : String) (session : Checkout) (st : State) :
    State × WebhookRes :=
  if sigOk = false then (st, .badSignature)
  else if eventType = "checkout.session.completed" then
    if session.paymentStatus = "paid" ∧ isAch session = true then
      match resolveEmail session with
      | some paidEmail =>
        let packageType := jsOr session.metadataPackageType "full"
        let st1 := grantEntitlement paidEmail packageType st
        let st2 := { st1 with payments := st1.payments.map (completePayment session.id) }
        (st2, .received)
      | none => (st, .received)
    else (st, .received)
  else (st, .received)

/-! ## `POST /api/create-checkout-session` (`src/server.js` 391-502) -/

/-- The authenticated caller as seen by the session (or the minimal object
`{ email }` built from a JWT, whose missing `paid` field is falsy). -/
structure SessionUser where
  email : String
  paid : Bool
  deriving Repr, DecidableEq

/-- The parameters of the Stripe session the handler creates: the
payment-method types, product name, charged `unit_amount`, and the identity /
pricing metadata echoed back at confirmation time. -/
structure SessionParams where
  paymentMethodTypes : List String
  productName : String
  unitAmount : Nat
  clientReferenceId : String
  metaEmail : String
  metaPackageType : String
  metaPaymentMethod : String
  metaBasePrice : Nat
  metaProcessingFee : Nat
  metaTotalPrice : Nat
  deriving Repr, DecidableEq

/-- Responses of the session-creation handler. -/
inductive CreateRes where
  | notConfigured
  | notAuthenticated
  | packageRequired
  | ok (params : SessionParams)
  deriving Repr, DecidableEq

/-- `Math.round(basePriceInCents * 0.03)`: rounding 3% of the base to the
nearest cent (ties up).  For every base this handler produces (29900, 130000,
159900) `3 * base` is divisible by 100, and the double computation
`base * 0.03` is within `10 ^ (-9)` of the integer `3 * base / 100`, so the
JavaScript result coincides with this integer formula. -/
def jsRound3pct (base : Nat) : Nat := (3 * base + 50) / 100

/-- Base price selection (`src/server.js` 436-451). -/
def basePriceInCents (packageType : String) (userPaid : Bool) : Nat :=
  if packageType = "form-filling" then
    if userPaid then 130000 else 29900
  else 159900

/-- Product name selection (`src/server.js` 436-451). -/
def productNameOf (packageType : String) (userPaid : Bool) : String :=
  if packageType = "form-filling" then
    if userPaid then "Upgrade to Full Package" else "Form Filling Package"
  else "Full Package"

/-- Processing-fee selection (`src/server.js` 453-461). -/
def processingFeeInCents (paymentMethod : String) (base : Nat) : Nat :=
  if paymentMethod = "card" then jsRound3pct base
  else if paymentMethod = "ach" then 50
  else 0

/-- The handler `POST /api/create-checkout-session` (`src/server.js` 391-502).
`sessionUser` is `req.session.user`; `jwtEmail` the email of a verified bearer
token used as fallback; `packageType`/`paymentMethod` come from the JSON body
(the destructuring default makes an absent `paymentMethod` `'card'`). -/
def createCheckoutSession (stripeConfigured : Bool) (sessionUser : Option SessionUser)
    (jwtEmail : Option String) (packageType : Option String) (paymentMethod : Option String) :
    CreateRes :=
  if stripeConfigured = false then .notConfigured
  else
    let su? : Option SessionUser :=
      match sessionUser with
      | some su => some su
      | none =>
        match jwtEmail with
        | some e => some { email := e, paid := false }
        | none => none
    match su? with
    | none => .notAuthenticated
    | some su =>
      match jsTruthy packageType with
      | none => .packageRequired
      | some pkg =>
        let method := paymentMethod.getD "card"
        let base := basePriceInCents pkg su.paid
        let fee := processingFeeInCents method base
        let total := base + fee
        .ok { paymentMethodTypes := if method = "ach" then ["us_bank_account"] else ["card"]
              productName := productNameOf pkg su.paid
              unitAmount := total
              clientReferenceId := su.email
              metaEmail := su.email
              metaPackageType := pkg
              metaPaymentMethod := method
              metaBasePrice := base
              metaProcessingFee := fee
              metaTotalPrice := total }

/-! ## `POST /api/get-user-token` (`src/server.js` 729-769) -/

/-- Responses of the get-user-token handler. -/
inductive TokenRes where
  | badRequest
  | notFound
  | ok (token : SignedToken) (user : UserView)
  deriving Repr, DecidableEq

/-- The handler `POST /api/get-user-token`: reject a falsy email, look the user
up by exact email match, and mint a 7-day JWT carrying the stored
`{ email, paid, package_type }` snapshot.  The handler performs no password,
session, or other credential check: its only inputs are the store and the
requested email. -/
def getUserToken (st : State) (email : Option String) : TokenRes :=
  match jsTruthy email with
  | none => .badRequest
  | some e =>
    match findUser st.users e with
    | none => .notFound
    | some u =>
      .ok { claims := { email := u.email, paid := u.paid, packageType := u.packageType }
            secret := configJwtSecret
            expiresIn := "7d" }
          { email := u.email, paid := u.paid, packageType := u.packageType }

/-! ## Supporting lemmas -/

theorem updUser_email (pe pt : String) (u : UserRow) : (updUser pe pt u).email = u.email := by
  unfold updUser; split <;> rfl

theorem findUser_map_updUser (l : List UserRow) (e pe pt : String) :
    findUser (l.map (updUser pe pt)) e = (findUser l e).map (updUser pe pt) := by
  induction l with
  | nil => rfl
  | cons u us ih =>
    simp only [findUser, List.map_cons, List.find?_cons, updUser_email] at *
    cases hb : (u.email == e)
    · simpa [hb] using ih
    · simp [hb]

theorem grantEntitlement_payments (pe pt : String) (st : State) :
    (grantEntitlement pe pt st).payments = st.payments := rfl

theorem grantEntitlement_users (pe pt : String) (st : State) :
    (grantEntitlement pe pt st).users = st.users.map (updUser pe pt) := rfl

theorem countSession_eq_zero_iff (ps : List PaymentRow) (sid : String) :
    countSession ps sid = 0 ↔ ps.filter (fun p => p.stripeSessionId == sid) = [] := by
  simp [countSession, List.length_eq_zero]

theorem any_session_eq_false_iff (ps : List PaymentRow) (sid : String) :
    ps.any (fun p => p.stripeSessionId == sid) = false ↔ countSession ps sid = 0 := by
  rw [countSession_eq_zero_iff, List.filter_eq_nil_iff, Bool.eq_false_iff, Ne,
    List.any_eq_true]
  simp

theorem countSession_append_hit (ps : List PaymentRow) (r : PaymentRow) (sid : String)
    (h : r.stripeSessionId = sid) :
    countSession (ps ++ [r]) sid = countSession ps sid + 1 := by
  simp [countSession, List.filter_append, h]

theorem confirmRow_sid (sid : String) (c : Checkout) (e : String) :
    (confirmRow sid c e).stripeSessionId = sid := rfl

theorem recordPaymentStep_healthy (row oldRow : PaymentRow) (st : State) :
    recordPaymentStep none none row oldRow st =
      (if st.payments.any (fun p => p.stripeSessionId == row.stripeSessionId) then st
       else { st with payments := st.payments ++ [row] }, true) := by
  have hc : dupKeyError.code = "23505" ∧ jsIncludes dupKeyError.message "stripe_session_id" = true :=
    ⟨rfl, by decide⟩
  unfold recordPaymentStep insertPayment
  by_cases h : st.payments.any (fun p => p.stripeSessionId == row.stripeSessionId) = true
  · simp only [h, if_true, if_pos hc]
  · simp only [Bool.not_eq_true] at h
    simp only [h, Bool.false_eq_true, if_false, if_neg]

theorem jsTruthy_some_of_ne (s : String) (h : s ≠ "") : jsTruthy (some s) = some s := by
  simp [jsTruthy, h]

theorem confirm_step_eligible (retrieve : String → Option Checkout) (sid : String) (c : Checkout)
    (e : String) (st : State)
    (hsid : sid ≠ "") (hret : retrieve sid = some c) (helig : isEligible c = true)
    (hmail : resolveEmail c = some e) :
    confirm true retrieve none none (some sid) st =
      (grantEntitlement e (jsOr c.metadataPackageType "full")
        (if st.payments.any (fun p => p.stripeSessionId == sid) then st
         else { st with payments := st.payments ++ [confirmRow sid c e] }),
       ConfirmRes.json true
         (some { claims := { email := e, paid := true,
                             packageType := some (jsOr c.metadataPackageType "full") }
                 secret := configJwtSecret, expiresIn := "7d" })
         (some { email := e, paid := true,
                 packageType := some (jsOr c.metadataPackageType "full") })) := by
  unfold confirm
  rw [jsTruthy_some_of_ne sid hsid]
  simp only [hret, helig, hmail, if_true, recordPaymentStep_healthy, confirmRow_sid]

theorem findUser_email_eq (l : List UserRow) (e : String) (u : UserRow)
    (h : findUser l e = some u) : u.email = e := by
  unfold findUser at h
  have := List.find?_some h
  simpa using this

theorem confirm_step_count (retrieve : String → Option Checkout) (sid : String) (c : Checkout)
    (e : String) (st : State)
    (hsid : sid ≠ "") (hret : retrieve sid = some c) (helig : isEligible c = true)
    (hmail : resolveEmail c = some e)
    (hcount : countSession st.payments sid ≤ 1) :
    countSession (confirm true retrieve none none (some sid) st).1.payments sid = 1 := by
  rw [confirm_step_eligible retrieve sid c e st hsid hret helig hmail]
  show countSession (grantEntitlement _ _ _).payments sid = 1
  rw [grantEntitlement_payments]
  by_cases h : st.payments.any (fun p => p.stripeSessionId == sid) = true
  · rw [if_pos h]
    have h0 : countSession st.payments sid ≠ 0 := by
      intro hz
      rw [← any_session_eq_false_iff] at hz
      rw [h] at hz
      cases hz
    omega
  · rw [if_neg h]
    have h0 : countSession st.payments sid = 0 := by
      rw [← any_session_eq_false_iff]
      simpa using h
    rw [countSession_append_hit _ _ _ (confirmRow_sid sid c e), h0]

theorem confirm_step_user (retrieve : String → Option Checkout) (sid : String) (c : Checkout)
    (e : String) (st : State) (u : UserRow)
    (hsid : sid ≠ "") (hret : retrieve sid = some c) (helig : isEligible c = true)
    (hmail : resolveEmail c = some e)
    (huser : findUser st.users e = some u) :
    findUser (confirm true retrieve none none (some sid) st).1.users e =
      some { u with paid := true, packageType := some (jsOr c.metadataPackageType "full") } := by
  rw [confirm_step_eligible retrieve sid c e st hsid hret helig hmail]
  show findUser (grantEntitlement _ _ _).users e = _
  rw [grantEntitlement_users, findUser_map_updUser]
  have husers : (if (st.payments.any fun p => p.stripeSessionId == sid) = true then st
      else { st with payments := st.payments ++ [confirmRow sid c e] }).users = st.users := by
    split <;> rfl
  rw [husers, huser]
  have hue : u.email = e := findUser_email_eq st.users e u huser
  simp [updUser, hue]

theorem confirmIter_invariant (retrieve : String → Option Checkout) (sid : String) (c : Checkout)
    (e : String)
    (hsid : sid ≠ "") (hret : retrieve sid = some c) (helig : isEligible c = true)
    (hmail : resolveEmail c = some e)
    (n : Nat) (st : State) (u : UserRow)
    (hcount : countSession st.payments sid = 1)
    (huser : findUser st.users e = some u)
    (hpaid : u.paid = true)
    (hpkg : u.packageType = some (jsOr c.metadataPackageType "full")) :
    countSession (confirmIter retrieve sid n st).payments sid = 1 ∧
    findUser (confirmIter retrieve sid n st).users e = some u := by
  induction n generalizing st u with
  | zero => exact ⟨hcount, huser⟩
  | succ m ih =>
    have hfix : { u with paid := true, packageType := some (jsOr c.metadataPackageType "full") } = u := by
      cases u
      simp_all
    have hc1 : countSession (confirm true retrieve none none (some sid) st).1.payments sid = 1 :=
      confirm_step_count retrieve sid c e st hsid hret helig hmail (by omega)
    have hu1 : findUser (confirm true retrieve none none (some sid) st).1.users e = some u := by
      rw [confirm_step_user retrieve sid c e st u hsid hret helig hmail huser, hfix]
    simpa [confirmIter] using ih _ u hc1 hu1 hpaid hpkg

theorem confirm_not_eligible_frame (retrieve : String → Option Checkout) (sid : String)
    (c : Checkout) (st : State) (fault1 fault2 : Option DbError)
    (hsid : sid ≠ "") (hret : retrieve sid = some c) (helig : isEligible c = false) :
    confirm true retrieve fault1 fault2 (some sid) st = (st, ConfirmRes.json false none none) := by
  unfold confirm
  rw [jsTruthy_some_of_ne sid hsid]
  simp [hret, helig]

theorem confirm_no_identity (retrieve : String → Option Checkout) (sid : String)
    (c : Checkout) (st : State) (fault1 fault2 : Option DbError)
    (hsid : sid ≠ "") (hret : retrieve sid = some c) (helig : isEligible c = true)
    (hmail : resolveEmail c = none) :
    confirm true retrieve fault1 fault2 (some sid) st = (st, ConfirmRes.json true none none) := by
  unfold confirm
  rw [jsTruthy_some_of_ne sid hsid]
  simp [hret, helig, hmail]

/-! ## Claim C1 -/

/-- C1: For every sequence of N ≥ 1 calls to `GET /api/checkout/confirm` with
the same provider session identifier whose provider status is `paid` (against a
healthy database whose unique-index invariant holds, for a checkout carrying an
identity reference that names an existing principal), after the sequence
completes exactly one `payments` row exists with that `stripe_session_id`, and
the owning principal's `paid` flag in the `users` table is `true`. -/
theorem confirm_paid_sequence_exactly_once
    (retrieve : String → Option Checkout) (sid : String) (c : Checkout) (e : String)
    (st : State) (u : UserRow) (n : Nat)
    (hsid : sid ≠ "") (hret : retrieve sid = some c) (hpaid : c.paymentStatus = "paid")
    (hmail : resolveEmail c = some e)
    (hcount : countSession st.payments sid ≤ 1)
    (huser : findUser st.users e = some u)
    (hn : 1 ≤ n) :
    countSession (confirmIter retrieve sid n st).payments sid = 1 ∧
    findUser (confirmIter retrieve sid n st).users e =
      some { u with paid := true, packageType := some (jsOr c.metadataPackageType "full") } := by
  have helig : isEligible c = true := by simp [isEligible, hpaid]
  obtain ⟨m, rfl⟩ : ∃ m, n = m + 1 := ⟨n - 1, by omega⟩
  have hc1 := confirm_step_count retrieve sid c e st hsid hret helig hmail hcount
  have hu1 := confirm_step_user retrieve sid c e st u hsid hret helig hmail huser
  have hinv := confirmIter_invariant retrieve sid c e hsid hret helig hmail m
    (confirm true retrieve none none (some sid) st).1
    { u with paid := true, packageType := some (jsOr c.metadataPackageType "full") }
    hc1 hu1 rfl rfl
  simpa [confirmIter] using hinv

def w1Checkout : Checkout :=
  { id := "cs_w1", paymentStatus := "paid", paymentMethodTypes := ["card"]
    amountTotal := 30797, clientReferenceId := some "a@x.com", metadataEmail := some "a@x.com"
    metadataPackageType := some "form-filling", metadataPaymentMethod := some "card"
    metadataBasePrice := some 29900, metadataProcessingFee := some 897 }

def w1Retrieve : String → Option Checkout := fun _ => some w1Checkout

def w1User : UserRow :=
  { email := "a@x.com", passwordHash := "h", paid := false, packageType := some "full" }

def w1State : State := { users := [w1User], payments := [] }

/-- Witness for C1: two confirmation calls for the same paid session leave one
`payments` row and a paid principal. -/
theorem confirm_paid_sequence_exactly_once_witness :
    countSession (confirmIter w1Retrieve "cs_w1" 2 w1State).payments "cs_w1" = 1 ∧
    findUser (confirmIter w1Retrieve "cs_w1" 2 w1State).users "a@x.com" =
      some { w1User with paid := true,
                         packageType := some (jsOr w1Checkout.metadataPackageType "full") } :=
  confirm_paid_sequence_exactly_once w1Retrieve "cs_w1" w1Checkout "a@x.com" w1State w1User 2
    (by decide) rfl rfl rfl (by decide) rfl (by decide)

/-! ## Claim C2 -/

/-- C2: For every call to the checkout confirmation operation where the
provider-reported payment status is neither `paid` nor an accepted
asynchronous-processing status (`processing` or `unpaid` with a bank-transfer
payment method), no `payments` row is created and no field of any `users` row
changes: the store is returned untouched with a `paid: false` response. -/
theorem confirm_ineligible_no_side_effects
    (retrieve : String → Option Checkout) (sid : String) (c : Checkout) (st : State)
    (fault1 fault2 : Option DbError)
    (hsid : sid ≠ "") (hret : retrieve sid = some c)
    (hnp : c.paymentStatus ≠ "paid")
    (hna : isAch c = false ∨ (c.paymentStatus ≠ "processing" ∧ c.paymentStatus ≠ "unpaid")) :
    confirm true retrieve fault1 fault2 (some sid) st = (st, ConfirmRes.json false none none) := by
  have helig : isEligible c = false := by
    cases hna with
    | inl h =>
      have h2 : "us_bank_account" ∉ c.paymentMethodTypes := by
        simpa [isAch] using h
      simp [isEligible, isAch, hnp, h2]
    | inr h => simp [isEligible, hnp, h.1, h.2]
  exact confirm_not_eligible_frame retrieve sid c st fault1 fault2 hsid hret helig

def w2Checkout : Checkout :=
  { id := "cs_w2", paymentStatus := "unpaid", paymentMethodTypes := ["card"]
    amountTotal := 30797, clientReferenceId := some "a@x.com", metadataEmail := some "a@x.com"
    metadataPackageType := some "form-filling", metadataPaymentMethod := some "card"
    metadataBasePrice := some 29900, metadataProcessingFee := some 897 }

def w2Retrieve : String → Option Checkout := fun _ => some w2Checkout

def w2State : State :=
  { users := [{ email := "a@x.com", passwordHash := "h", paid := false, packageType := some "full" }]
    payments := [] }

/-- Witness for C2: a card checkout whose status is `unpaid` leaves the store
untouched. -/
theorem confirm_ineligible_no_side_effects_witness :
    confirm true w2Retrieve none none (some "cs_w2") w2State =
      (w2State, ConfirmRes.json false none none) :=
  confirm_ineligible_no_side_effects w2Retrieve "cs_w2" w2Checkout w2State none none
    (by decide) rfl (by decide) (Or.inl (by decide))

/-! ## Claim C3 -/

def c3Checkout : Checkout :=
  { id := "cs_c3", paymentStatus := "paid", paymentMethodTypes := ["card"]
    amountTotal := 30797, clientReferenceId := none, metadataEmail := none
    metadataPackageType := some "form-filling", metadataPaymentMethod := some "card"
    metadataBasePrice := some 29900, metadataProcessingFee := some 897 }

def c3Retrieve : String → Option Checkout := fun _ => some c3Checkout

def c3State : State :=
  { users := [{ email := "a@x.com", passwordHash := "h", paid := false, packageType := some "full" }]
    payments := [] }

/-- Counterexample to C3 as stated: a paid checkout with no
`client_reference_id` and no metadata email does mutate nothing, but the
handler returns the success response `{ success: true, paid: true }` — no
`MissingIdentity` (or any other) error is surfaced. -/
theorem confirm_missing_identity_counterexample :
    confirm true c3Retrieve none none (some "cs_c3") c3State =
      (c3State, ConfirmRes.json true none none) := by
  decide

/-- C3 (amended): For every reconciliation call whose checkout has an eligible
provider status but carries no identity reference, the operation mutates
neither the `users` table nor the `payments` table, and returns the success
response `{ success: true, paid: true }` (with no token and no user) instead of
surfacing a `MissingIdentity` error. -/
theorem confirm_missing_identity_silent_no_mutation
    (retrieve : String → Option Checkout) (sid : String) (c : Checkout) (st : State)
    (fault1 fault2 : Option DbError)
    (hsid : sid ≠ "") (hret : retrieve sid = some c)
    (helig : isEligible c = true) (hmail : resolveEmail c = none) :
    confirm true retrieve fault1 fault2 (some sid) st = (st, ConfirmRes.json true none none) :=
  confirm_no_identity retrieve sid c st fault1 fault2 hsid hret helig hmail

/-- Witness for the amended C3. -/
theorem confirm_missing_identity_silent_no_mutation_witness :
    confirm true c3Retrieve none none (some "cs_c3") c3State =
      (c3State, ConfirmRes.json true none none) :=
  confirm_missing_identity_silent_no_mutation c3Retrieve "cs_c3" c3Checkout c3State none none
    (by decide) rfl (by decide) rfl

/-! ## Claim C4 -/

def c4Fault : DbError := { code := "08006", message := "connection failure" }

def c4Checkout : Checkout :=
  { id := "cs_c4", paymentStatus := "paid", paymentMethodTypes := ["card"]
    amountTotal := 30797, clientReferenceId := some "a@x.com", metadataEmail := some "a@x.com"
    metadataPackageType := some "form-filling", metadataPaymentMethod := some "card"
    metadataBasePrice := some 29900, metadataProcessingFee := some 897 }

def c4Retrieve : String → Option Checkout := fun _ => some c4Checkout

def c4State : State :=
  { users := [{ email := "a@x.com", passwordHash := "h", paid := false, packageType := some "full" }]
    payments := [] }

/-- C4 is a code bug: when the `payments` insert fails with a non-duplicate
error (here `08006`, a connection failure), the handler swallows it — the
`paymentRecorded` flag is computed but never read — and still sets the
principal's `paid` flag and `package_type`, mints a paid token, and returns the
success response, while the `payments` table records nothing.  This evaluation
of the handler at the failing input exhibits the divergence from the claimed
`PersistenceFailure` surfacing. -/
theorem confirm_swallows_persistence_failure :
    confirm true c4Retrieve (some c4Fault) none (some "cs_c4") c4State =
      ({ users := [{ email := "a@x.com", passwordHash := "h", paid := true,
                     packageType := some "form-filling" }]
         payments := [] },
       ConfirmRes.json true
         (some { claims := { email := "a@x.com", paid := true, packageType := some "form-filling" }
                 secret := configJwtSecret, expiresIn := "7d" })
         (some { email := "a@x.com", paid := true, packageType := some "form-filling" })) := by
  decide

/-! ## Claim C5 -/

/-- C5: Recording a payment event is first-writer-wins: from any payments
table not yet holding the session identifier, recording an event and then
immediately recording a second event with the identical provider session
identifier but a different amount leaves exactly one stored row for that
session identifier, holding the values of the first recorded event, while the
second insert reports the duplicate-key error. -/
theorem recordPayment_first_writer_wins
    (st : State) (r1 r2 : PaymentRow)
    (hsid : r2.stripeSessionId = r1.stripeSessionId)
    (_hamt : r1.amountCents ≠ r2.amountCents)
    (hfresh : countSession st.payments r1.stripeSessionId = 0) :
    (insertPayment none r2 (insertPayment none r1 st).1).1.payments.filter
        (fun p => p.stripeSessionId == r1.stripeSessionId) = [r1] ∧
    (insertPayment none r2 (insertPayment none r1 st).1).2 = some dupKeyError := by
  have hany1 : st.payments.any (fun p => p.stripeSessionId == r1.stripeSessionId) = false :=
    (any_session_eq_false_iff _ _).mpr hfresh
  have hfil : st.payments.filter (fun p => p.stripeSessionId == r1.stripeSessionId) = [] :=
    (countSession_eq_zero_iff _ _).mp hfresh
  have h1 : insertPayment none r1 st = ({ st with payments := st.payments ++ [r1] }, none) := by
    unfold insertPayment
    rw [if_neg (by simp [hany1])]
  rw [h1]
  have hany2 : (st.payments ++ [r1]).any (fun p => p.stripeSessionId == r2.stripeSessionId) = true := by
    rw [List.any_append]
    simp [hsid]
  have h2 : insertPayment none r2 { st with payments := st.payments ++ [r1] } =
      ({ st with payments := st.payments ++ [r1] }, some dupKeyError) := by
    unfold insertPayment
    rw [if_pos hany2]
  rw [h2]
  refine ⟨?_, rfl⟩
  rw [List.filter_append, hfil]
  simp

def w5r1 : PaymentRow :=
  { userEmail := "a@x.com", stripeSessionId := "cs_w5", amountCents := 30797
    amountDollars := (30797 : Rat) / 100, packageType := "form-filling"
    paymentType := "initial", paymentMethod := some "card"
    basePriceCents := some 29900, processingFeeCents := some 897, status := "completed" }

def w5r2 : PaymentRow :=
  { w5r1 with amountCents := 99, amountDollars := (99 : Rat) / 100 }

def w5State : State := { users := [], payments := [] }

/-- Witness for C5. -/
theorem recordPayment_first_writer_wins_witness :
    (insertPayment none w5r2 (insertPayment none w5r1 w5State).1).1.payments.filter
        (fun p => p.stripeSessionId == w5r1.stripeSessionId) = [w5r1] ∧
    (insertPayment none w5r2 (insertPayment none w5r1 w5State).1).2 = some dupKeyError :=
  recordPayment_first_writer_wins w5State w5r1 w5r2 rfl (by decide) rfl

/-! ## Claim C6 -/

/-- The eligibility predicate exactly as the claim words it: status is `paid`,
or the payment method is the asynchronous bank-transfer type and the status is
`processing` or `unpaid`. -/
def specEligible (c : Checkout) : Prop :=
  c.paymentStatus = "paid" ∨
    (c.paymentMethodTypes.contains "us_bank_account" = true ∧
      (c.paymentStatus = "processing" ∨ c.paymentStatus = "unpaid"))

theorem confirm_eligible_paid_response (retrieve : String → Option Checkout) (sid : String)
    (c : Checkout) (st : State)
    (hsid : sid ≠ "") (hret : retrieve sid = some c) (helig : isEligible c = true) :
    ∃ tok usr, (confirm true retrieve none none (some sid) st).2 = ConfirmRes.json true tok usr := by
  cases hmail : resolveEmail c with
  | none =>
    refine ⟨none, none, ?_⟩
    rw [confirm_no_identity retrieve sid c st none none hsid hret helig hmail]
  | some e =>
    refine ⟨?_, ?_, ?_⟩
    · exact some { claims := { email := e, paid := true,
                               packageType := some (jsOr c.metadataPackageType "full") }
                   secret := configJwtSecret, expiresIn := "7d" }
    · exact some { email := e, paid := true,
                   packageType := some (jsOr c.metadataPackageType "full") }
    · rw [confirm_step_eligible retrieve sid c e st hsid hret helig hmail]

/-- C6: The reconciler's eligibility decision equals the claimed predicate
(`paid`, or bank-transfer with `processing`/`unpaid`); every non-eligible
checkout yields the unresolved `paid: false` response with no state change;
every eligible checkout yields a `paid: true` (proceeding) response; and in the
asynchronous cases the recorded payment row carries status `processing`. -/
theorem eligibility_decision_correct :
    (∀ c : Checkout, isEligible c = true ↔ specEligible c) ∧
    (∀ (retrieve : String → Option Checkout) (sid : String) (c : Checkout) (st : State)
        (fault1 fault2 : Option DbError),
        sid ≠ "" → retrieve sid = some c → isEligible c = false →
        confirm true retrieve fault1 fault2 (some sid) st =
          (st, ConfirmRes.json false none none)) ∧
    (∀ (retrieve : String → Option Checkout) (sid : String) (c : Checkout) (st : State),
        sid ≠ "" → retrieve sid = some c → isEligible c = true →
        ∃ tok usr, (confirm true retrieve none none (some sid) st).2 =
          ConfirmRes.json true tok usr) ∧
    (∀ (sid : String) (c : Checkout) (e : String), achAsync c = true →
        (confirmRow sid c e).status = "processing") := by
  refine ⟨?_, ?_, ?_, ?_⟩
  · intro c
    simp [isEligible, specEligible, isAch, Bool.or_eq_true, Bool.and_eq_true]
    tauto
  · intro retrieve sid c st fault1 fault2 hsid hret helig
    exact confirm_not_eligible_frame retrieve sid c st fault1 fault2 hsid hret helig
  · intro retrieve sid c st hsid hret helig
    exact confirm_eligible_paid_response retrieve sid c st hsid hret helig
  · intro sid c e h
    unfold confirmRow
    simp [h]

def w6Checkout : Checkout :=
  { id := "cs_w6", paymentStatus := "canceled", paymentMethodTypes := ["card"]
    amountTotal := 0, clientReferenceId := some "a@x.com", metadataEmail := some "a@x.com"
    metadataPackageType := some "form-filling", metadataPaymentMethod := some "card"
    metadataBasePrice := some 29900, metadataProcessingFee := some 897 }

def w6Retrieve : String → Option Checkout := fun _ => some w6Checkout

def w6State : State := { users := [], payments := [] }

def w6AchCheckout : Checkout :=
  { id := "cs_w6b", paymentStatus := "processing", paymentMethodTypes := ["us_bank_account"]
    amountTotal := 29950, clientReferenceId := some "a@x.com", metadataEmail := some "a@x.com"
    metadataPackageType := some "form-filling", metadataPaymentMethod := some "ach"
    metadataBasePrice := some 29900, metadataProcessingFee := some 50 }

/-- Witness for C6: a `canceled` card checkout is not eligible and resolves to
the unchanged-state `paid: false` response; an eligible bank-transfer
`processing` checkout satisfies the claimed predicate and its recorded row has
status `processing`. -/
theorem eligibility_decision_correct_witness :
    (confirm true w6Retrieve none none (some "cs_w6") w6State =
      (w6State, ConfirmRes.json false none none)) ∧
    specEligible w6AchCheckout ∧
    (confirmRow "cs_w6b" w6AchCheckout "a@x.com").status = "processing" :=
  ⟨eligibility_decision_correct.2.1 w6Retrieve "cs_w6" w6Checkout w6State none none
      (by decide) rfl (by decide),
   (eligibility_decision_correct.1 w6AchCheckout).mp (by decide),
   eligibility_decision_correct.2.2.2 "cs_w6b" w6AchCheckout "a@x.com" (by decide)⟩

/-! ## Claim C7 -/

/-- The charged total exactly as the claim words it: the base price plus a
payment-method-dependent surcharge — 3 percent of the base rounded to the
nearest cent for card, a flat 50 cents for bank transfer. -/
def claimedTotal (base : Nat) (method : String) : Nat :=
  if method = "card" then base + (3 * base + 50) / 100 else base + 50

/-- C7: For every checkout-session creation, the charged total in minor
currency units equals the base price determined by the package selection
(29900 for a form-filling first purchase, 130000 for an upgrade by an
already-paid user, 159900 otherwise, i.e. for `full`) plus the claimed
payment-method surcharge; in particular a form-filling card checkout with base
29900 totals 30797. -/
theorem checkout_total_price :
    (∀ (su : SessionUser) (pkgQ pmQ : Option String) (ps : SessionParams),
        createCheckoutSession true (some su) none pkgQ pmQ = CreateRes.ok ps →
        (pmQ.getD "card" = "card" ∨ pmQ.getD "card" = "ach") →
        ∃ pkg, jsTruthy pkgQ = some pkg ∧
          ps.unitAmount = claimedTotal (basePriceInCents pkg su.paid) (pmQ.getD "card")) ∧
    (∀ paid : Bool, basePriceInCents "form-filling" paid = if paid then 130000 else 29900) ∧
    (∀ (pkg : String) (paid : Bool), pkg ≠ "form-filling" → basePriceInCents pkg paid = 159900) ∧
    claimedTotal 29900 "card" = 30797 := by
  refine ⟨?_, ?_, ?_, by decide⟩
  · intro su pkgQ pmQ ps hok hm
    unfold createCheckoutSession at hok
    rw [if_neg (by decide)] at hok
    cases hpk : jsTruthy pkgQ with
    | none => rw [hpk] at hok; cases hok
    | some pkg =>
      rw [hpk] at hok
      refine ⟨pkg, rfl, ?_⟩
      have hps : ps.unitAmount =
          basePriceInCents pkg su.paid +
            processingFeeInCents (pmQ.getD "card") (basePriceInCents pkg su.paid) := by
        cases hok
        rfl
      rw [hps]
      cases hm with
      | inl h => rw [h]; simp [claimedTotal, processingFeeInCents, jsRound3pct]
      | inr h => rw [h]; simp [claimedTotal, processingFeeInCents]
  · intro paid
    cases paid <;> rfl
  · intro pkg paid h
    simp [basePriceInCents, h]

def c7Params : SessionParams :=
  { paymentMethodTypes := ["card"], productName := "Form Filling Package", unitAmount := 30797
    clientReferenceId := "a@x.com", metaEmail := "a@x.com", metaPackageType := "form-filling"
    metaPaymentMethod := "card", metaBasePrice := 29900, metaProcessingFee := 897
    metaTotalPrice := 30797 }

/-- Witness for C7: the form-filling card checkout of an unpaid user produces
`unit_amount` 30797 = 29900 + 897. -/
theorem checkout_total_price_witness :
    (∃ pkg, jsTruthy (some "form-filling") = some pkg ∧
      c7Params.unitAmount = claimedTotal (basePriceInCents pkg false) "card") ∧
    c7Params.unitAmount = 30797 := by
  have h := checkout_total_price.1 { email := "a@x.com", paid := false }
    (some "form-filling") (some "card") c7Params (by decide) (Or.inl rfl)
  exact ⟨by simpa using h, rfl⟩

/-! ## Claim C8 -/

/-- C8: For every payment event stored with status `processing` from an
asynchronous bank-transfer checkout, a later `checkout.session.completed`
webhook delivery (with a valid signature) reporting that checkout session as
`paid` updates that same `payments` row's status to `completed` and sets the
owning principal's `paid` flag, without creating (or removing) any `payments`
row. -/
theorem webhook_completes_processing_payment
    (sess : Checkout) (st : State) (e : String) (u : UserRow) (r : PaymentRow)
    (hpaid : sess.paymentStatus = "paid") (hach : isAch sess = true)
    (hmail : resolveEmail sess = some e)
    (huser : findUser st.users e = some u)
    (hrow : r ∈ st.payments) (hrsid : r.stripeSessionId = sess.id)
    (_hrst : r.status = "processing") :
    (stripeWebhook true "checkout.session.completed" sess st).1.payments.length =
      st.payments.length ∧
    { r with status := "completed" } ∈
      (stripeWebhook true "checkout.session.completed" sess st).1.payments ∧
    findUser (stripeWebhook true "checkout.session.completed" sess st).1.users e =
      some { u with paid := true, packageType := some (jsOr sess.metadataPackageType "full") } := by
  have hred : (stripeWebhook true "checkout.session.completed" sess st).1 =
      { users := st.users.map (updUser e (jsOr sess.metadataPackageType "full"))
        payments := st.payments.map (completePayment sess.id) } := by
    unfold stripeWebhook
    rw [if_neg (by decide), if_pos rfl, if_pos ⟨hpaid, hach⟩, hmail]
    rfl
  rw [hred]
  refine ⟨List.length_map _ _, ?_, ?_⟩
  · refine List.mem_map.mpr ⟨r, hrow, ?_⟩
    unfold completePayment
    rw [if_pos hrsid]
  · show findUser (st.users.map (updUser e (jsOr sess.metadataPackageType "full"))) e = _
    rw [findUser_map_updUser, huser]
    have hue : u.email = e := findUser_email_eq st.users e u huser
    simp [updUser, hue]

def w8Session : Checkout :=
  { id := "cs_w8", paymentStatus := "paid", paymentMethodTypes := ["us_bank_account"]
    amountTotal := 29950, clientReferenceId := some "a@x.com", metadataEmail := some "a@x.com"
    metadataPackageType := some "form-filling", metadataPaymentMethod := some "ach"
    metadataBasePrice := some 29900, metadataProcessingFee := some 50 }

def w8Row : PaymentRow :=
  { userEmail := "a@x.com", stripeSessionId := "cs_w8", amountCents := 29950
    amountDollars := (29950 : Rat) / 100, packageType := "form-filling"
    paymentType := "initial", paymentMethod := some "ach"
    basePriceCents := some 29900, processingFeeCents := some 50, status := "processing" }

def w8User : UserRow :=
  { email := "a@x.com", passwordHash := "h", paid := true, packageType := some "form-filling" }

def w8State : State := { users := [w8User], payments := [w8Row] }

/-- Witness for C8. -/
theorem webhook_completes_processing_payment_witness :
    (stripeWebhook true "checkout.session.completed" w8Session w8State).1.payments.length =
      w8State.payments.length ∧
    { w8Row with status := "completed" } ∈
      (stripeWebhook true "checkout.session.completed" w8Session w8State).1.payments ∧
    findUser (stripeWebhook true "checkout.session.completed" w8Session w8State).1.users
        "a@x.com" =
      some { w8User with paid := true,
                         packageType := some (jsOr w8Session.metadataPackageType "full") } :=
  webhook_completes_processing_payment w8Session w8State "a@x.com" w8User w8Row
    rfl rfl rfl rfl (by simp [w8State]) rfl rfl

/-! ## Claim C9 -/

/-- C9: For every request to the checkout confirmation operation in which the
`session_id` query parameter is absent, or the payment provider client is not
configured, the operation returns the success response `paid: false`, performs
no read of the provider (the result does not depend on the provider oracle at
all), and mutates neither the `users` nor the `payments` table. -/
theorem confirm_absent_session_noop
    (stripeConfigured : Bool) (retrieve retrieve2 : String → Option Checkout)
    (fault1 fault2 : Option DbError) (sessionId : Option String) (st : State)
    (h : sessionId = none ∨ stripeConfigured = false) :
    confirm stripeConfigured retrieve fault1 fault2 sessionId st =
      (st, ConfirmRes.json false none none) ∧
    confirm stripeConfigured retrieve fault1 fault2 sessionId st =
      confirm stripeConfigured retrieve2 fault1 fault2 sessionId st := by
  have key : ∀ rt : String → Option Checkout,
      confirm stripeConfigured rt fault1 fault2 sessionId st =
        (st, ConfirmRes.json false none none) := by
    intro rt
    cases h with
    | inl h => subst h; rfl
    | inr h =>
      subst h
      cases hj : jsTruthy sessionId with
      | none => unfold confirm; rw [hj]
      | some sid => unfold confirm; rw [hj]
  exact ⟨key retrieve, (key retrieve).trans (key retrieve2).symm⟩

def w9Retrieve : String → Option Checkout := fun _ => some w1Checkout

def w9Retrieve2 : String → Option Checkout := fun _ => none

def w9State : State :=
  { users := [{ email := "a@x.com", passwordHash := "h", paid := false, packageType := some "full" }]
    payments := [] }

/-- Witness for C9: with no `session_id`, the handler answers `paid: false`
and ignores the provider. -/
theorem confirm_absent_session_noop_witness :
    (confirm true w9Retrieve none none none w9State =
      (w9State, ConfirmRes.json false none none)) ∧
    confirm true w9Retrieve none none none w9State =
      confirm true w9Retrieve2 none none none w9State :=
  confirm_absent_session_noop true w9Retrieve w9Retrieve2 none none none w9State (Or.inl rfl)

/-! ## Claim C10 -/

/-- C10: For every email registered in the `users` table, a
`POST /api/get-user-token` request naming that (nonempty) email returns the
7-day signed bearer token carrying that principal's
`{ email, paid, packageType }` snapshot straight from the stored row.  The
handler takes no password, session, or other credential: its only inputs are
the store and the requested email, so registration of the email is the sole
precondition. -/
theorem get_user_token_no_credential_check
    (st : State) (e : String) (u : UserRow)
    (hne : e ≠ "") (huser : findUser st.users e = some u) :
    getUserToken st (some e) =
      TokenRes.ok
        { claims := { email := u.email, paid := u.paid, packageType := u.packageType }
          secret := configJwtSecret, expiresIn := "7d" }
        { email := u.email, paid := u.paid, packageType := u.packageType } := by
  simp only [getUserToken, jsTruthy_some_of_ne e hne, huser]

def w10User : UserRow :=
  { email := "a@x.com", passwordHash := "secret-hash", paid := true
    packageType := some "full" }

def w10State : State := { users := [w10User], payments := [] }

/-- Witness for C10. -/
theorem get_user_token_no_credential_check_witness :
    getUserToken w10State (some "a@x.com") =
      TokenRes.ok
        { claims := { email := w10User.email, paid := w10User.paid
                      packageType := w10User.packageType }
          secret := configJwtSecret, expiresIn := "7d" }
        { email := w10User.email, paid := w10User.paid, packageType := w10User.packageType } :=
  get_user_token_no_credential_check w10State "a@x.com" w10User (by decide) rfl
